import Mathlib

/-!
Verification of the metrinix sampling-and-rate-derivation engine
(`src/index.js`) against its natural-language specification.

The JavaScript source is shallowly embedded:
* JS numbers are idealized as exact rationals extended with the IEEE special
  values `Infinity`, `-Infinity` and `NaN` (`JsNum`); double rounding and the
  negative zero are not modelled.
* JS dynamic values reaching arithmetic are numbers, strings, or `undefined`
  (`JsVal`); strings are lists of characters.
* Node-style asynchronous outcomes are modelled by `Outcome`: a promise can
  resolve, be rejected, the callback can throw an uncaught exception, or an
  error can be swallowed (logged) leaving the promise forever pending.
* Fallible synchronous code runs in `Except JsErr`.
-/

namespace Metrinix

/-- Errors that the embedded code can raise. `typeError` models a JS
`TypeError` (calling a method of `undefined`/`null`); `ioErr` models an I/O
error supplied by the filesystem environment; `invalidUptimeFile` models
`new Error('Invalid uptime file')` from `uptime()`. -/
inductive JsErr where
  | typeError
  | ioErr
  | invalidUptimeFile
deriving DecidableEq

/-- A JS number, idealized: finite doubles are modelled as exact rationals;
the special values `Infinity`, `-Infinity`, `NaN` are explicit. -/
inductive JsNum where
  | fin (q : ℚ)
  | inf
  | negInf
  | nan
deriving DecidableEq

/-- IEEE addition on idealized JS numbers. -/
def JsNum.add : JsNum → JsNum → JsNum
  | .fin a, .fin b => .fin (a + b)
  | .fin _, .inf => .inf
  | .fin _, .negInf => .negInf
  | .inf, .fin _ => .inf
  | .negInf, .fin _ => .negInf
  | .inf, .inf => .inf
  | .negInf, .negInf => .negInf
  | .inf, .negInf => .nan
  | .negInf, .inf => .nan
  | _, _ => .nan

/-- IEEE negation on idealized JS numbers. -/
def JsNum.neg : JsNum → JsNum
  | .fin a => .fin (-a)
  | .inf => .negInf
  | .negInf => .inf
  | .nan => .nan

/-- IEEE subtraction on idealized JS numbers. -/
def JsNum.sub (a b : JsNum) : JsNum := a.add b.neg

/-- IEEE multiplication on idealized JS numbers. -/
def JsNum.mul : JsNum → JsNum → JsNum
  | .fin a, .fin b => .fin (a * b)
  | .fin a, .inf => if 0 < a then .inf else if a < 0 then .negInf else .nan
  | .fin a, .negInf => if 0 < a then .negInf else if a < 0 then .inf else .nan
  | .inf, .fin b => if 0 < b then .inf else if b < 0 then .negInf else .nan
  | .negInf, .fin b => if 0 < b then .negInf else if b < 0 then .inf else .nan
  | .inf, .inf => .inf
  | .inf, .negInf => .negInf
  | .negInf, .inf => .negInf
  | .negInf, .negInf => .inf
  | _, _ => .nan

/-- IEEE division on idealized JS numbers. Division of a nonzero finite
number by zero yields a signed infinity (`+0` is assumed: the negative zero
is not modelled); `0/0`, `Infinity/Infinity` and any `NaN` operand yield
`NaN`. -/
def JsNum.div : JsNum → JsNum → JsNum
  | .fin a, .fin b =>
      if b = 0 then (if 0 < a then .inf else if a < 0 then .negInf else .nan)
      else .fin (a / b)
  | .fin _, .inf => .fin 0
  | .fin _, .negInf => .fin 0
  | .inf, .fin b => if b < 0 then .negInf else .inf
  | .negInf, .fin b => if b < 0 then .inf else .negInf
  | _, _ => .nan

/-- Whether a JS number is finite (neither infinite nor `NaN`). -/
def JsNum.isFinite : JsNum → Bool
  | .fin _ => true
  | _ => false

/-- A JS dynamic value as it appears in the parsed records: a number, a
string, or `undefined`. -/
inductive JsVal where
  | num (n : JsNum)
  | str (s : List Char)
  | undef
deriving DecidableEq

/-- The set of characters matched by the JS `\s` class (ASCII part) and
removed by `String.prototype.trim`. -/
def isJsWhitespace (c : Char) : Bool :=
  c == ' ' || c == '\t' || c == '\n' || c == '\r' || c == '\x0b' || c == '\x0c'

/-- JS `String.prototype.trim`: strip whitespace from both ends. -/
def jsTrim (s : List Char) : List Char :=
  ((s.dropWhile isJsWhitespace).reverse.dropWhile isJsWhitespace).reverse

/-- `lpfx p s` is true when `p` is a prefix of `s` (used by the embedded
first-occurrence string replacement). -/
def lpfx : List Char → List Char → Bool
  | [], _ => true
  | _ :: _, [] => false
  | p :: ps, c :: s => p == c && lpfx ps s

/-- JS `String.prototype.replace` with a plain-string pattern: replace the
first occurrence of `pat` in `s` with `repl`; if `pat` does not occur, the
string is unchanged. -/
def jsReplaceFirst (pat repl : List Char) : List Char → List Char
  | [] => []
  | c :: rest =>
      if lpfx pat (c :: rest) then repl ++ (c :: rest).drop pat.length
      else c :: jsReplaceFirst pat repl rest

/-- Helper for the regex `/(\([^\)]+\))/`: the characters strictly before the
first `')'`, or `none` when no `')'` exists. -/
def takeUntilClose : List Char → Option (List Char)
  | [] => none
  | c :: r => if c = ')' then some [] else (takeUntilClose r).map (c :: ·)

/-- Matching engine for the regex `/(\([^\)]+\))/`: leftmost span consisting
of `'('`, one or more non-`')'` characters, and `')'`. A `'('` immediately
followed by `')'` (empty body) does not match and the scan continues. -/
def matchParenSpan : List Char → Option (List Char)
  | [] => none
  | c :: rest =>
      if c = '(' then
        match takeUntilClose rest with
        | some b => if b = [] then matchParenSpan rest else some ('(' :: b ++ [')'])
        | none => matchParenSpan rest
      else matchParenSpan rest

/-- `processName[0].replace(/\s/g, '_')`: every whitespace character becomes
an underscore. -/
def uscWs (s : List Char) : List Char :=
  s.map (fun c => if isJsWhitespace c then '_' else c)

/-- The test `value.match(/[0-9\.]+$/)`: true when the string ends in at
least one digit or dot. -/
def hasNumericSuffix (t : List Char) : Bool :=
  match t.getLast? with
  | some c => c.isDigit || c == '.'
  | none => false

/-- Numeric value of a list of decimal digit characters. -/
def digitsVal (ds : List Char) : ℕ :=
  ds.foldl (fun a c => 10 * a + (c.toNat - 48)) 0

/-- Split a string into its leading run of decimal digits and the rest. -/
def takeDigits (s : List Char) : List Char × List Char :=
  (s.takeWhile Char.isDigit, s.dropWhile Char.isDigit)

/-- `10 ^ e` for an integer exponent, as a rational. -/
def pow10 (e : ℤ) : ℚ :=
  if 0 ≤ e then ((10 : ℚ) ^ e.toNat) else 1 / ((10 : ℚ) ^ (-e).toNat)

/-- Exponent part of a JS numeric literal (`e`/`E`, optional sign, digits);
yields the exponent contributed, `0` when no well-formed exponent follows
(JS `parseFloat` stops at the malformed suffix). -/
def parseExpPart (r : List Char) : ℤ :=
  match r with
  | 'e' :: r' | 'E' :: r' =>
      (match r' with
       | '-' :: r'' =>
           (fun d => if d = ([] : List Char) then 0 else -(digitsVal d : ℤ)) (takeDigits r'').1
       | '+' :: r'' =>
           (fun d => if d = ([] : List Char) then 0 else (digitsVal d : ℤ)) (takeDigits r'').1
       | _ =>
           (fun d => if d = ([] : List Char) then 0 else (digitsVal d : ℤ)) (takeDigits r').1)
  | _ => 0

/-- Full-consumption exponent parse, for `ToNumber`: `some ex` when `r` is
empty or exactly `e`/`E`, optional sign, one or more digits; `none`
otherwise. -/
def parseExpFull (r : List Char) : Option ℤ :=
  match r with
  | [] => some 0
  | 'e' :: r' | 'E' :: r' =>
      (match r' with
       | '-' :: r'' =>
           (fun d => if d.1 ≠ ([] : List Char) ∧ d.2 = ([] : List Char)
                     then some (-(digitsVal d.1 : ℤ)) else none) (takeDigits r'')
       | '+' :: r'' =>
           (fun d => if d.1 ≠ ([] : List Char) ∧ d.2 = ([] : List Char)
                     then some ((digitsVal d.1 : ℤ)) else none) (takeDigits r'')
       | _ =>
           (fun d => if d.1 ≠ ([] : List Char) ∧ d.2 = ([] : List Char)
                     then some ((digitsVal d.1 : ℤ)) else none) (takeDigits r'))
  | _ => none

/-- JS `parseFloat`: skip leading whitespace, parse an optional sign, then
the longest prefix that is `Infinity` or a decimal literal with optional
fraction and exponent; `NaN` when no digits are found. -/
def jsParseFloat (s0 : List Char) : JsNum :=
  let s1 := s0.dropWhile isJsWhitespace
  let sign : ℚ := match s1 with
    | '-' :: _ => -1
    | _ => 1
  let s2 : List Char := match s1 with
    | '-' :: r => r
    | '+' :: r => r
    | _ => s1
  if lpfx "Infinity".data s2 then (if sign = 1 then .inf else .negInf)
  else
    let ip := takeDigits s2
    let fp : List Char × List Char := match ip.2 with
      | '.' :: r => takeDigits r
      | _ => ([], ip.2)
    if ip.1 = [] ∧ fp.1 = [] then .nan
    else
      let mant : ℚ := (digitsVal ip.1 : ℚ) + (digitsVal fp.1 : ℚ) / ((10 : ℚ) ^ fp.1.length)
      .fin (sign * mant * pow10 (parseExpPart fp.2))

/-- Smallest exponent `e` with `d ∣ 10 ^ e`, when one exists (it does exactly
when `d` has only `2` and `5` as prime factors). -/
def decPow (d : ℕ) : Option ℕ :=
  (List.range (d + 1)).find? (fun e => 10 ^ e % d == 0)

/-- Decimal rendering of a rational. Exact for rationals with a terminating
decimal expansion (the only finite values producible by the embedded
parsers); other rationals — unreachable from double-valued inputs — are
rendered as a fraction. -/
def ratToDecimalStr (q : ℚ) : List Char :=
  let sgn : List Char := if q < 0 then ['-'] else []
  let n := q.num.natAbs
  let d := q.den
  let ip := Nat.toDigits 10 (n / d)
  let fr := n % d
  if fr = 0 then sgn ++ ip
  else
    match decPow d with
    | some e =>
        let digs := Nat.toDigits 10 (fr * 10 ^ e / d)
        sgn ++ ip ++ '.' :: (List.replicate (e - digs.length) '0' ++ digs)
    | none => sgn ++ Nat.toDigits 10 n ++ '/' :: Nat.toDigits 10 d

/-- JS `ToString` on numbers (under the rational idealization). -/
def jsNumToString : JsNum → List Char
  | .nan => "NaN".data
  | .inf => "Infinity".data
  | .negInf => "-Infinity".data
  | .fin q => ratToDecimalStr q

/-- JS `ToString` on the dynamic values occurring in records. -/
def jsValToString : JsVal → List Char
  | .str s => s
  | .num n => jsNumToString n
  | .undef => "undefined".data

/-- JS `ToNumber` on a string: trimmed empty string is `0`; otherwise the
whole trimmed string must be a numeric literal (optional sign, `Infinity` or
decimal form), else `NaN`. Hex/octal/binary literal forms are included for
completeness. -/
def jsToNumberStr (s0 : List Char) : JsNum :=
  let s := jsTrim s0
  if s = [] then .fin 0
  else
    match s with
    | '0' :: 'x' :: r | '0' :: 'X' :: r =>
        if r ≠ [] ∧ r.all (fun c => c.isDigit || ('a' ≤ c ∧ c ≤ 'f') || ('A' ≤ c ∧ c ≤ 'F')) then
          .fin ((r.foldl (fun a c => 16 * a +
            (if c.isDigit then c.toNat - 48
             else if 'a' ≤ c then c.toNat - 87 else c.toNat - 55)) 0 : ℕ) : ℚ)
        else .nan
    | _ =>
        let sign : ℚ := match s with
          | '-' :: _ => -1
          | _ => 1
        let s2 : List Char := match s with
          | '-' :: r => r
          | '+' :: r => r
          | _ => s
        if s2 = "Infinity".data then (if sign = 1 then .inf else .negInf)
        else
          let ip := takeDigits s2
          let fp : List Char × List Char := match ip.2 with
            | '.' :: r => takeDigits r
            | _ => ([], ip.2)
          if ip.1 = [] ∧ fp.1 = [] then .nan
          else
            match parseExpFull fp.2 with
            | none => .nan
            | some ex =>
                let mant : ℚ :=
                  (digitsVal ip.1 : ℚ) + (digitsVal fp.1 : ℚ) / ((10 : ℚ) ^ fp.1.length)
                .fin (sign * mant * pow10 ex)

/-- JS `ToNumber` on a dynamic value. -/
def jsToNumber : JsVal → JsNum
  | .num n => n
  | .str s => jsToNumberStr s
  | .undef => .nan

/-- JS `+` on dynamic values: numeric addition when both operands are
numbers, string concatenation otherwise. -/
def jsAdd : JsVal → JsVal → JsVal
  | .num a, .num b => .num (a.add b)
  | a, b => .str (jsValToString a ++ jsValToString b)

/-- JS `*` on dynamic values (both operands coerced with `ToNumber`). -/
def jsMulVal (a b : JsVal) : JsNum := (jsToNumber a).mul (jsToNumber b)

/-- The parser's coercion step: `parseFloat(value)` when
`value.match(/[0-9\.]+$/)` succeeds, otherwise the string is kept. -/
def jsCoerce (t : List Char) : JsVal :=
  if hasNumericSuffix t then .num (jsParseFloat t) else .str t

/-! ## The `/proc/[pid]/stat` schema (`statMap` in the source) -/

/-- The `statMap` literal of the source: field name to 0-based position in
the 52-token `/proc/[pid]/stat` line (kernel 3.5 layout), in declaration
order. -/
def statList : List (List Char × ℕ) :=
  [("pid".data, 0), ("comm".data, 1), ("state".data, 2), ("ppid".data, 3),
   ("pgrp".data, 4), ("session".data, 5), ("tty_nr".data, 6), ("tpgid".data, 7),
   ("flags".data, 8), ("minflt".data, 9), ("cminflt".data, 10), ("majflt".data, 11),
   ("cmajflt".data, 12), ("utime".data, 13), ("stime".data, 14), ("cutime".data, 15),
   ("cstime".data, 16), ("priority".data, 17), ("nice".data, 18), ("num_threads".data, 19),
   ("itrealvalue".data, 20), ("starttime".data, 21), ("vsize".data, 22), ("rss".data, 23),
   ("rsslim".data, 24), ("startcode".data, 25), ("endcode".data, 26), ("startstack".data, 27),
   ("kstkesp".data, 28), ("kstkeip".data, 29), ("signal".data, 30), ("blocked".data, 31),
   ("sigignore".data, 32), ("sigcatch".data, 33), ("wchan".data, 34), ("nswap".data, 35),
   ("cnswap".data, 36), ("exit_signal".data, 37), ("processor".data, 38),
   ("rt_priority".data, 39), ("policy".data, 40), ("delayacct_blkio_ticks".data, 41),
   ("guest_time".data, 42), ("cguest_time".data, 43), ("start_data".data, 44),
   ("end_data".data, 45), ("start_brk".data, 46), ("arg_start".data, 47),
   ("arg_end".data, 48), ("env_start".data, 49), ("env_end".data, 50),
   ("exit_code".data, 51)]

/-- The ordered cases of the state-code `switch` statement, exactly as they
appear in the source (note the duplicated `'W'` key: JS `switch` matches the
first `case` in order, so the second `'W'` arm is dead). -/
def stateCases : List (List Char × List Char) :=
  [("S".data, "Sleeping".data),
   ("R".data, "Running".data),
   ("D".data, "Waiting".data),
   ("Z".data, "Zombie".data),
   ("T".data, "Stopped".data),
   ("t".data, "Tracing stop".data),
   ("W".data, "Paging".data),
   ("X".data, "Dead".data),
   ("x".data, "Dead".data),
   ("K".data, "Wakekill".data),
   ("W".data, "Waking".data),
   ("P".data, "Parked".data)]

/-- The state `switch`: first matching case wins; with no `default` case an
unrecognized code leaves `state` as `undefined` (`none`). -/
def stateLabel (c : List Char) : Option (List Char) :=
  (stateCases.find? (fun p => p.1 = c)).map (·.2)

/-! ## Record parser (`ps`'s per-pid stat handling) -/

/-- First phase of the stat-line parse: trim; find the first bracketed span
(`stat.match(/(\([^\)]+\))/)` — a `null` match makes `processName[0]` throw
`TypeError`); replace its whitespace with underscores in place
(first-occurrence string replace); split on single spaces; record whether
the token count differs from 52 (`console.warn`, modelled by the `Bool`);
restore the original bracketed text at position 1 (`statMap.comm`). -/
def parseStatParts (stat0 : List Char) : Bool × Except JsErr (List (List Char)) :=
  let stat := jsTrim stat0
  match matchParenSpan stat with
  | none => (false, .error .typeError)
  | some pname =>
      let parts := (jsReplaceFirst pname (uscWs pname) stat).splitOn ' '
      (decide (parts.length ≠ 52), .ok (parts.set 1 pname))

/-- The state classification applied to the (restored) token list: the
`switch` reads `parts[statMap.state]`; an out-of-range access yields
`undefined`, which matches no case. -/
def stateOf (parts : List (List Char)) : Option (List Char) :=
  match parts.get? 2 with
  | some t => stateLabel t
  | none => none

/-- `rawMap` construction: for each schema field, read `parts[idx]` and
coerce. When the token count is short, `parts[idx]` is `undefined` and
`value.match(...)` throws `TypeError`. -/
def buildRawMap (parts : List (List Char)) : List (List Char × ℕ) → Except JsErr (List (List Char × JsVal))
  | [] => .ok []
  | (k, i) :: rest =>
      match parts.get? i with
      | none => .error .typeError
      | some t =>
          match buildRawMap parts rest with
          | .error e => .error e
          | .ok m => .ok ((k, jsCoerce t) :: m)

/-- JS object property read on the raw field map: `undefined` when the key
is absent. -/
def rawLookup (k : List Char) : List (List Char × JsVal) → JsVal
  | [] => .undef
  | (k', v) :: r => if k' = k then v else rawLookup k r

/-- `rawMap.comm.replace(/[\(\)]/g, '').trim()`: strings drop every
parenthesis and are trimmed; calling `.replace` on a non-string raw value
would throw `TypeError` (unreachable: the `comm` slot always holds the
restored bracketed string). -/
def execOf : JsVal → Except JsErr (List Char)
  | .str s => .ok (jsTrim (s.filter (fun c => ¬(c = '(' ∨ c = ')'))))
  | _ => .error .typeError

/-- The `memory` sub-object: `pages` is `rawMap.rss`, `pagesize` the raw
`getconf PAGESIZE` output (a string, coerced by the arithmetic operators),
`bytes = rss * pagesize`, and `mb` is `0` when `rss === 0`, else
`bytes / (1024*1024)`. -/
structure ProcMemory where
  pages : JsVal
  pagesize : JsVal
  bytes : JsNum
  mb : JsNum
deriving DecidableEq

/-- Builds the `memory` literal of the source. -/
def mkMemory (rss pagesize : JsVal) : ProcMemory :=
  { pages := rss
    pagesize := pagesize
    bytes := jsMulVal rss pagesize
    mb := if rss = .num (.fin 0) then .fin 0 else (jsMulVal rss pagesize).div (.fin (1024 * 1024)) }

/-- One entry of the mapping produced by `readAll` for a pid. -/
structure ProcEntry where
  idProcess : List Char
  idParent : JsVal
  executable : List Char
  command : List Char
  stateCode : JsVal
  stateValue : Option (List Char)
  raw : List (List Char × JsVal)
  memory : ProcMemory
deriving DecidableEq

/-- Per-pid record construction from the cmdline content and the stat-line
content (the body of the `dirs.forEach` callback, after the two
`readFileSync` calls). The `Bool` is the schema-drift warning flag. -/
def processDir (pagesize PID cmdline statContent : List Char) :
    Bool × Except JsErr ProcEntry :=
  let command := jsTrim ((cmdline.map (fun c => if c = '\x00' then ' ' else c)))
  match parseStatParts statContent with
  | (w, .error e) => (w, .error e)
  | (w, .ok parts) =>
      let state := stateOf parts
      match buildRawMap parts statList with
      | .error e => (w, .error e)
      | .ok rawMap =>
          match execOf (rawLookup "comm".data rawMap) with
          | .error e => (w, .error e)
          | .ok exe =>
              (w, .ok
                { idProcess := PID
                  idParent := rawLookup "ppid".data rawMap
                  executable := exe
                  command := command
                  stateCode := rawLookup "state".data rawMap
                  stateValue := state
                  raw := rawMap
                  memory := mkMemory (rawLookup "rss".data rawMap) (.str pagesize) })

/-! ## Snapshot reader (`readAll`) -/

/-- How the promise returned by an embedded asynchronous operation ends up:
resolved with a value, rejected (`deferred.reject` — never invoked anywhere
in the source), an exception thrown from a Node callback outside any
try/catch (uncaught, crashes the process), or an error caught and only
`console.log`ged so that the promise never settles. -/
inductive Outcome (α : Type) where
  | resolved (a : α)
  | rejected (e : JsErr)
  | uncaught (e : JsErr)
  | hang (e : JsErr)
deriving DecidableEq

/-- Whether the promise resolved. -/
def Outcome.isResolved {α : Type} : Outcome α → Bool
  | .resolved _ => true
  | _ => false

/-- Whether the error was swallowed, leaving the promise pending forever. -/
def Outcome.isHang {α : Type} : Outcome α → Bool
  | .hang _ => true
  | _ => false

/-- The filesystem environment a `readAll` run observes: the `/proc` listing
and, per pid, the contents of `/proc/PID/cmdline` and `/proc/PID/stat`
(`.error` when the `readFileSync` would throw, e.g. the process exited
between enumeration and read). -/
structure Fs where
  readdirProc : Except JsErr (List (List Char))
  cmdlineFile : List Char → Except JsErr (List Char)
  statFile : List Char → Except JsErr (List Char)

/-- `dir.match(/[0-9]+$/)`: the maximal trailing run of digits, `none` when
the name does not end in a digit (such entries are skipped). -/
def digitSuffix (d : List Char) : Option (List Char) :=
  let r := (d.reverse.takeWhile Char.isDigit).reverse
  if r = [] then none else some r

/-- JS object assignment `processes[PID] = entry`: overwrite in place when
the key exists, append otherwise. -/
def assocSet (m : List (List Char × ProcEntry)) (k : List Char) (v : ProcEntry) :
    List (List Char × ProcEntry) :=
  match m with
  | [] => [(k, v)]
  | (k', v') :: r => if k' = k then (k, v) :: r else (k', v') :: assocSet r k v

/-- Processing of one directory entry: skip non-pid names, read the cmdline
and stat files (a failed `readFileSync` throws), and build the record. -/
def dirRead (fs : Fs) (pagesize d : List Char) :
    Except JsErr (Option (List Char × ProcEntry)) :=
  match digitSuffix d with
  | none => .ok none
  | some PID =>
      match fs.cmdlineFile PID with
      | .error e => .error e
      | .ok cmdline =>
          match fs.statFile PID with
          | .error e => .error e
          | .ok statContent =>
              match (processDir pagesize PID cmdline statContent).2 with
              | .error e => .error e
              | .ok ent => .ok (some (PID, ent))

/-- The `dirs.forEach` loop accumulating the process map. The first thrown
exception aborts the whole loop. -/
def readLoop (fs : Fs) (pagesize : List Char) :
    List (List Char) → List (List Char × ProcEntry) →
    Except JsErr (List (List Char × ProcEntry))
  | [], acc => .ok acc
  | d :: rest, acc =>
      match dirRead fs pagesize d with
      | .error e => .error e
      | .ok none => readLoop fs pagesize rest acc
      | .ok (some pe) => readLoop fs pagesize rest (assocSet acc pe.1 pe.2)

/-- One snapshot read (`readAll`), given the already-resolved
`getconf PAGESIZE` output. A failing `fs.readdir` makes the callback
`throw err` outside any try/catch: the exception is uncaught and the
promise never settles. Any exception inside the `try { dirs.forEach ... }`
block lands in `catch (e) { console.log(e) }`: the error is logged,
`deferred.resolve` is never reached, and the promise hangs. -/
def readAll (fs : Fs) (pagesize : List Char) :
    Outcome (List (List Char × ProcEntry)) :=
  match fs.readdirProc with
  | .error e => .uncaught e
  | .ok dirs =>
      match readLoop fs pagesize dirs [] with
      | .error e => .hang e
      | .ok m => .resolved m

/-! ## Uptime (`self.uptime`) -/

/-- The resolved value of `uptime()`. -/
structure UptimeRec where
  up : JsNum
  idle : JsNum
  idleTotal : JsNum
deriving DecidableEq

/-- `self.uptime()`, given the outcome of reading `/proc/uptime` and the
number of CPU cores (`os.cpus().length`). A read error is re-thrown inside
the callback (uncaught); `data.split(' ')` must have exactly two parts
(the `typeof`/`forEach` conjuncts of the guard are identically false for an
array and are omitted), else `new Error('Invalid uptime file')` is thrown
(also uncaught); otherwise the promise resolves with the two floats, the
second averaged over the cores. -/
def uptimeOp (readResult : Except JsErr (List Char)) (ncores : ℕ) : Outcome UptimeRec :=
  match readResult with
  | .error e => .uncaught e
  | .ok data =>
      let parts := data.splitOn ' '
      if parts.length ≠ 2 then .uncaught .invalidUptimeFile
      else
        .resolved
          { up := jsParseFloat (parts.getD 0 [])
            idle := (jsParseFloat (parts.getD 1 [])).div (.fin ncores)
            idleTotal := jsParseFloat (parts.getD 1 []) }

/-! ## Rate engine (the `setTimeout` body of `self.ps`) -/

/-- The `cpu` sub-object attached to each surviving process entry. -/
structure CpuInfo where
  totalPercent : JsNum
  userPercent : JsNum
  systemPercent : JsNum
  rawUser : JsNum
  rawSystem : JsNum
  rawTotal : JsNum
deriving DecidableEq

/-- Per-pid CPU rate computation: user/system tick deltas (JS `+` on raw
field values, then `-` and `/` which coerce with `ToNumber`), divided by
the clock rate and the uptime difference. `hertz` is the
`getconf CLK_TCK` output after the `ToNumber` coercion the `/` operator
applies; `upDiff` is `curUptime.up - prevUptime.up`. -/
def computeCpu (prevP curP : ProcEntry) (hertz upDiff : JsNum) : CpuInfo :=
  let prevUserTime := jsAdd (rawLookup "utime".data prevP.raw) (rawLookup "cutime".data prevP.raw)
  let curUserTime := jsAdd (rawLookup "utime".data curP.raw) (rawLookup "cutime".data curP.raw)
  let userDiff := ((jsToNumber curUserTime).sub (jsToNumber prevUserTime)).div hertz
  let prevSystemTime := jsAdd (rawLookup "stime".data prevP.raw) (rawLookup "cstime".data prevP.raw)
  let curSystemTime := jsAdd (rawLookup "stime".data curP.raw) (rawLookup "cstime".data curP.raw)
  let systemDiff := ((jsToNumber curSystemTime).sub (jsToNumber prevSystemTime)).div hertz
  let totalDiff := userDiff.add systemDiff
  { totalPercent := (totalDiff.div upDiff).mul (.fin 100)
    userPercent := (userDiff.div upDiff).mul (.fin 100)
    systemPercent := (systemDiff.div upDiff).mul (.fin 100)
    rawUser := userDiff
    rawSystem := systemDiff
    rawTotal := totalDiff }

/-- First-match association lookup (JS object property read on the process
maps). -/
def alookup {V : Type} (k : List Char) : List (List Char × V) → Option V
  | [] => none
  | (k', v) :: r => if k' = k then some v else alookup k r

/-- The rate engine (spec name `computeRates`): iterate over the identifiers
of the current snapshot `p2processes`; delete those with no baseline entry
in `processes`; attach `cpu` rate data to the rest. The arithmetic cannot
throw, so the surrounding per-pid `try/catch` never fires on this path. -/
def computeRates (processes p2processes : List (List Char × ProcEntry))
    (hertz upDiff : JsNum) : List (List Char × (ProcEntry × CpuInfo)) :=
  p2processes.filterMap (fun pc =>
    match alookup pc.1 processes with
    | none => none
    | some prevP => some (pc.1, (pc.2, computeCpu prevP pc.2 hertz upDiff)))

/-! ## Helper shapes for stating theorems about well-formed stat lines -/

/-- The flattened tail of a space-joined token list: one leading space before
each token. -/
def tsFlat (ts : List (List Char)) : List Char :=
  (ts.map (fun t => ' ' :: t)).flatten

/-- A stat line assembled from its tokens, single-space separated. -/
def mkStatLine (t0 body : List Char) (ts : List (List Char)) : List Char :=
  t0 ++ ' ' :: '(' :: body ++ ')' :: tsFlat ts

/-- Whether an `Except` result is a success. -/
def exceptOk {ε α : Type} : Except ε α → Bool
  | .ok _ => true
  | .error _ => false

/-- Whether an `Except` result is the `TypeError` failure. -/
def isTypeError {α : Type} : Except JsErr α → Bool
  | .error .typeError => true
  | _ => false

/-- `n` copies of the token `"0"`. -/
def zeroToks (n : ℕ) : List (List Char) := List.replicate n ['0']

/-- A well-formed 52-token stat line for pid 1, executable name `init`,
state `S`. -/
def line52 : List Char := mkStatLine "1".data "init".data ("S".data :: zeroToks 49)

/-- A 51-token stat line (one field short of the kernel 3.5 layout). -/
def line51 : List Char := mkStatLine "1".data "init".data ("S".data :: zeroToks 48)

/-- A 53-token stat line (one field beyond the kernel 3.5 layout). -/
def line53 : List Char := mkStatLine "1".data "init".data ("S".data :: zeroToks 50)

/-- A process entry carrying the four CPU-accounting raw fields. -/
def mkTestEntry (u sy cu cs : ℚ) : ProcEntry :=
  { idProcess := "100".data
    idParent := .undef
    executable := []
    command := []
    stateCode := .undef
    stateValue := none
    raw := [("utime".data, .num (.fin u)), ("stime".data, .num (.fin sy)),
            ("cutime".data, .num (.fin cu)), ("cstime".data, .num (.fin cs))]
    memory := mkMemory .undef (.str []) }

/-- Baseline entry of the spec scenario: `utime 10, stime 5, cutime 0,
cstime 0`. -/
def prevEnt : ProcEntry := mkTestEntry 10 5 0 0

/-- Current entry of the spec scenario: `utime 20, stime 5, cutime 0,
cstime 0`. -/
def curEnt : ProcEntry := mkTestEntry 20 5 0 0

/-- Baseline snapshot holding only pid 100. -/
def baseSnap : List (List Char × ProcEntry) := [("100".data, prevEnt)]

/-- Current snapshot holding only pid 100. -/
def curSnap : List (List Char × ProcEntry) := [("100".data, curEnt)]

/-- A current snapshot holding only pid 999 (absent from the baseline). -/
def curSnap999 : List (List Char × ProcEntry) := [("999".data, curEnt)]

/-- A filesystem in which `/proc` lists pids 1 and 2 but pid 2's stat file
has become unreadable (the process exited between enumeration and read). -/
def fsTransient : Fs :=
  { readdirProc := .ok ["1".data, "2".data]
    cmdlineFile := fun _ => .ok "cmd".data
    statFile := fun pid => if pid = "1".data then .ok line52 else .error .ioErr }

/-- A filesystem in which the `/proc` listing itself cannot be read. -/
def fsDown : Fs :=
  { readdirProc := .error .ioErr
    cmdlineFile := fun _ => .error .ioErr
    statFile := fun _ => .error .ioErr }

/-! ## Shared lemmas -/

/-- Looking up an identifier present in both snapshots in the rate-engine
output yields the current entry paired with its `cpu` data. -/
theorem alookup_computeRates (processes p2 : List (List Char × ProcEntry))
    (pid : List Char) (prevP curP : ProcEntry) (hertz upDiff : JsNum)
    (hprev : alookup pid processes = some prevP)
    (hcur : alookup pid p2 = some curP) :
    alookup pid (computeRates processes p2 hertz upDiff) =
      some (curP, computeCpu prevP curP hertz upDiff) := by
  induction p2 with
  | nil => simp [alookup] at hcur
  | cons kv rest ih =>
      obtain ⟨k, v⟩ := kv
      by_cases hk : k = pid
      · subst hk
        simp only [alookup, if_pos rfl] at hcur
        obtain rfl : v = curP := by injection hcur
        simp [computeRates, List.filterMap_cons, hprev, alookup]
      · simp only [alookup, if_neg hk] at hcur
        have := ih hcur
        simp only [computeRates, List.filterMap_cons] at this ⊢
        cases h' : alookup k processes with
        | none => simpa [h'] using this
        | some p' => simpa [h', alookup, if_neg hk] using this

/-- Dividing any idealized JS number by (positive) zero never yields a
finite value. -/
theorem div_fin_zero_not_finite (t : JsNum) : (t.div (.fin 0)).isFinite = false := by
  cases t with
  | fin q =>
      simp only [JsNum.div, if_pos rfl]
      split_ifs <;> rfl
  | inf => simp [JsNum.div, JsNum.isFinite]
  | negInf => simp [JsNum.div, JsNum.isFinite]
  | nan => simp [JsNum.div, JsNum.isFinite]

/-- Multiplying a non-finite idealized JS number by `100` keeps it
non-finite. -/
theorem mul_hundred_not_finite (x : JsNum) (h : x.isFinite = false) :
    (x.mul (.fin 100)).isFinite = false := by
  cases x with
  | fin q => simp [JsNum.isFinite] at h
  | inf => simp [JsNum.mul, JsNum.isFinite]
  | negInf => simp [JsNum.mul, JsNum.isFinite]
  | nan => simp [JsNum.mul, JsNum.isFinite]

/-- Claim C3 (confirmed): the rate-bearing output of `computeRates` has no
entry for an identifier missing from the baseline snapshot (such entries
are deleted, not errors) and no entry for an identifier missing from the
current snapshot. -/
theorem c3_unmatched_identifiers_excluded
    (processes p2 : List (List Char × ProcEntry)) (hertz upDiff : JsNum)
    (pid : List Char)
    (h : alookup pid processes = none ∨ alookup pid p2 = none) :
    alookup pid (computeRates processes p2 hertz upDiff) = none := by
  induction p2 with
  | nil => simp [computeRates, alookup]
  | cons kv rest ih =>
      obtain ⟨k, v⟩ := kv
      by_cases hk : k = pid
      · subst hk
        rcases h with h | h
        · simp only [computeRates, List.filterMap_cons, h]
          exact ih (Or.inl h)
        · simp [alookup] at h
      · have hrest : alookup pid processes = none ∨ alookup pid rest = none := by
          rcases h with h | h
          · exact Or.inl h
          · simp only [alookup, if_neg hk] at h
            exact Or.inr h
        simp only [computeRates, List.filterMap_cons]
        cases h' : alookup k processes with
        | none => simpa using ih hrest
        | some p' => simpa [alookup, if_neg hk] using ih hrest

/-- Witness for C3: pid 999 exists only in the current snapshot and pid 100
only in the baseline; neither appears in the output. -/
theorem c3_witness :
    alookup "999".data (computeRates baseSnap curSnap999 (.fin 100) (.fin 5)) = none ∧
    alookup "100".data (computeRates baseSnap curSnap999 (.fin 100) (.fin 5)) = none := by
  constructor
  · exact c3_unmatched_identifiers_excluded baseSnap curSnap999 (.fin 100) (.fin 5)
      "999".data (Or.inl rfl)
  · exact c3_unmatched_identifiers_excluded baseSnap curSnap999 (.fin 100) (.fin 5)
      "100".data (Or.inr rfl)

/-- Claim C5 (confirmed): for an identifier present in both snapshots with
finite numeric raw counters, `totalPercent` equals
`100 * (((cur.utime+cur.cutime) - (prev.utime+prev.cutime)) +
((cur.stime+cur.cstime) - (prev.stime+prev.cstime))) / hertz / elapsed`,
with no clamping; `rawUser`/`rawSystem` are the user/system deltas in
seconds. -/
theorem c5_rate_formula
    (processes p2 : List (List Char × ProcEntry)) (pid : List Char)
    (prevP curP : ProcEntry) (pu pcu psy pcs cu ccu csy ccs h e : ℚ)
    (hprev : alookup pid processes = some prevP)
    (hcur : alookup pid p2 = some curP)
    (h1 : rawLookup "utime".data prevP.raw = .num (.fin pu))
    (h2 : rawLookup "cutime".data prevP.raw = .num (.fin pcu))
    (h3 : rawLookup "stime".data prevP.raw = .num (.fin psy))
    (h4 : rawLookup "cstime".data prevP.raw = .num (.fin pcs))
    (h5 : rawLookup "utime".data curP.raw = .num (.fin cu))
    (h6 : rawLookup "cutime".data curP.raw = .num (.fin ccu))
    (h7 : rawLookup "stime".data curP.raw = .num (.fin csy))
    (h8 : rawLookup "cstime".data curP.raw = .num (.fin ccs))
    (hh : h ≠ 0) (he : e ≠ 0) :
    alookup pid (computeRates processes p2 (.fin h) (.fin e)) =
      some (curP, computeCpu prevP curP (.fin h) (.fin e)) ∧
    (computeCpu prevP curP (.fin h) (.fin e)).totalPercent =
      .fin (100 * (((cu + ccu) - (pu + pcu)) + ((csy + ccs) - (psy + pcs))) / h / e) ∧
    (computeCpu prevP curP (.fin h) (.fin e)).rawUser =
      .fin (((cu + ccu) - (pu + pcu)) / h) ∧
    (computeCpu prevP curP (.fin h) (.fin e)).rawSystem =
      .fin (((csy + ccs) - (psy + pcs)) / h) := by
  refine ⟨alookup_computeRates _ _ _ _ _ _ _ hprev hcur, ?_, ?_, ?_⟩ <;>
    · simp only [computeCpu, h1, h2, h3, h4, h5, h6, h7, h8, jsAdd, jsToNumber,
        JsNum.sub, JsNum.neg, JsNum.add, JsNum.div, JsNum.mul, if_neg hh, if_neg he]
      congr 1
      field_simp
      ring

/-- Witness for C5: the spec scenario — baseline `utime 10, stime 5`,
current `utime 20, stime 5`, no child times, elapsed 5 s at 100 Hz —
gives a user delta of 0.1 s, a system delta of 0 s, and a total of 2.0 %. -/
theorem c5_witness :
    alookup "100".data (computeRates baseSnap curSnap (.fin 100) (.fin 5)) =
      some (curEnt, computeCpu prevEnt curEnt (.fin 100) (.fin 5)) ∧
    (computeCpu prevEnt curEnt (.fin 100) (.fin 5)).totalPercent = .fin 2 ∧
    (computeCpu prevEnt curEnt (.fin 100) (.fin 5)).rawUser = .fin (1 / 10) ∧
    (computeCpu prevEnt curEnt (.fin 100) (.fin 5)).rawSystem = .fin 0 := by
  have H := c5_rate_formula baseSnap curSnap "100".data prevEnt curEnt
    10 0 5 0 20 0 5 0 100 5 rfl rfl rfl rfl rfl rfl rfl rfl rfl rfl
    (by norm_num) (by norm_num)
  refine ⟨H.1, ?_, ?_, ?_⟩
  · rw [H.2.1]; norm_num
  · rw [H.2.2.1]; norm_num
  · rw [H.2.2.2]; norm_num

/-- Counterexample for C1: with the two uptime readings equal (elapsed
`5 - 5 = 0`) the rate computation does not fail — it returns a result
mapping whose percentages are the IEEE `Infinity`/`NaN` values. -/
theorem c1_counterexample :
    computeRates baseSnap curSnap (.fin 100) ((JsNum.fin 5).sub (.fin 5)) =
      [("100".data, (curEnt,
        { totalPercent := .inf
          userPercent := .inf
          systemPercent := .nan
          rawUser := .fin (1 / 10)
          rawSystem := .fin 0
          rawTotal := .fin (1 / 10) }))] := by
  with_unfolding_all rfl

/-- Claim C1 (corrected): there is no interval guard. For an identifier
present in both snapshots (finite numeric counters, nonzero clock rate) and
for every elapsed value `e`, the rate computation returns an entry in the
result mapping rather than failing; with `e = 0` all three percentages are
the non-finite IEEE values (`Infinity`/`NaN` from the division by zero),
and with any nonzero — in particular negative — `e` they are the finite
values of the usual unclamped formula. -/
theorem c1_degenerate_interval_no_failure
    (processes p2 : List (List Char × ProcEntry)) (pid : List Char)
    (prevP curP : ProcEntry) (pu pcu psy pcs cu ccu csy ccs h : ℚ)
    (hprev : alookup pid processes = some prevP)
    (hcur : alookup pid p2 = some curP)
    (h1 : rawLookup "utime".data prevP.raw = .num (.fin pu))
    (h2 : rawLookup "cutime".data prevP.raw = .num (.fin pcu))
    (h3 : rawLookup "stime".data prevP.raw = .num (.fin psy))
    (h4 : rawLookup "cstime".data prevP.raw = .num (.fin pcs))
    (h5 : rawLookup "utime".data curP.raw = .num (.fin cu))
    (h6 : rawLookup "cutime".data curP.raw = .num (.fin ccu))
    (h7 : rawLookup "stime".data curP.raw = .num (.fin csy))
    (h8 : rawLookup "cstime".data curP.raw = .num (.fin ccs))
    (hh : h ≠ 0) :
    ∀ e : ℚ,
      alookup pid (computeRates processes p2 (.fin h) (.fin e)) =
        some (curP, computeCpu prevP curP (.fin h) (.fin e)) ∧
      (e = 0 →
        (computeCpu prevP curP (.fin h) (.fin e)).totalPercent.isFinite = false ∧
        (computeCpu prevP curP (.fin h) (.fin e)).userPercent.isFinite = false ∧
        (computeCpu prevP curP (.fin h) (.fin e)).systemPercent.isFinite = false) ∧
      (e ≠ 0 →
        (computeCpu prevP curP (.fin h) (.fin e)).totalPercent =
          .fin (100 * (((cu + ccu) - (pu + pcu)) + ((csy + ccs) - (psy + pcs))) / h / e) ∧
        (computeCpu prevP curP (.fin h) (.fin e)).userPercent =
          .fin (100 * ((cu + ccu) - (pu + pcu)) / h / e) ∧
        (computeCpu prevP curP (.fin h) (.fin e)).systemPercent =
          .fin (100 * ((csy + ccs) - (psy + pcs)) / h / e)) := by
  intro e
  refine ⟨alookup_computeRates _ _ _ _ _ _ _ hprev hcur, ?_, ?_⟩
  · rintro rfl
    exact ⟨mul_hundred_not_finite _ (div_fin_zero_not_finite _),
      mul_hundred_not_finite _ (div_fin_zero_not_finite _),
      mul_hundred_not_finite _ (div_fin_zero_not_finite _)⟩
  · intro he
    refine ⟨?_, ?_, ?_⟩ <;>
      · simp only [computeCpu, h1, h2, h3, h4, h5, h6, h7, h8, jsAdd, jsToNumber,
          JsNum.sub, JsNum.neg, JsNum.add, JsNum.div, JsNum.mul, if_neg hh, if_neg he]
        congr 1
        field_simp
        ring

/-- Witness for C1's amended statement at the concrete snapshots, at both a
zero and a negative elapsed value. -/
theorem c1_witness :
    alookup "100".data (computeRates baseSnap curSnap (.fin 100) (.fin 0)) =
      some (curEnt, computeCpu prevEnt curEnt (.fin 100) (.fin 0)) ∧
    (computeCpu prevEnt curEnt (.fin 100) (.fin 0)).totalPercent.isFinite = false ∧
    (computeCpu prevEnt curEnt (.fin 100) (.fin 0)).userPercent.isFinite = false ∧
    (computeCpu prevEnt curEnt (.fin 100) (.fin 0)).systemPercent.isFinite = false ∧
    alookup "100".data (computeRates baseSnap curSnap (.fin 100) (.fin (-1))) =
      some (curEnt, computeCpu prevEnt curEnt (.fin 100) (.fin (-1))) ∧
    (computeCpu prevEnt curEnt (.fin 100) (.fin (-1))).totalPercent = .fin (-10) := by
  have H := c1_degenerate_interval_no_failure baseSnap curSnap "100".data
    prevEnt curEnt 10 0 5 0 20 0 5 0 100 rfl rfl rfl rfl rfl rfl rfl rfl rfl rfl
    (by norm_num)
  obtain ⟨hz1, hz2, hz3⟩ := (H 0).2.1 rfl
  have hneg := (H (-1)).2.2 (by norm_num)
  refine ⟨(H 0).1, hz1, hz2, hz3, (H (-1)).1, ?_⟩
  rw [hneg.1]
  norm_num

/-- Claim C9 (confirmed): `uptime()` resolves with the first token parsed as
a float, the second parsed as a float (`idleTotal`), and `idle` the second
divided by the core count; any other token count throws the
invalid-uptime-file error. -/
theorem c9_uptime_parse (data : List Char) (n : ℕ) :
    (∀ t1 t2, data.splitOn ' ' = [t1, t2] →
      uptimeOp (.ok data) n =
        .resolved { up := jsParseFloat t1
                    idle := (jsParseFloat t2).div (.fin n)
                    idleTotal := jsParseFloat t2 }) ∧
    ((data.splitOn ' ').length ≠ 2 →
      uptimeOp (.ok data) n = .uncaught .invalidUptimeFile) := by
  constructor
  · intro t1 t2 h
    simp [uptimeOp, h]
  · intro h
    simp [uptimeOp, h]

/-- Witness for C9: `"100.5 200.5"` with 4 cores resolves to
`up = 100.5`, `idleTotal = 200.5`, `idle = 200.5 / 4`; a one-token content
throws the invalid-uptime-file error. -/
theorem c9_witness :
    uptimeOp (.ok "100.5 200.5".data) 4 =
      .resolved { up := .fin (201 / 2)
                  idle := .fin (401 / 8)
                  idleTotal := .fin (401 / 2) } ∧
    uptimeOp (.ok "100.5".data) 4 = .uncaught .invalidUptimeFile := by
  constructor
  · have H := (c9_uptime_parse "100.5 200.5".data 4).1 "100.5".data "200.5".data rfl
    rw [H]
    with_unfolding_all rfl
  · exact (c9_uptime_parse "100.5".data 4).2 (of_decide_eq_true (by with_unfolding_all rfl))

/-- Claim C10 (confirmed): the first `case 'W'` of the switch wins, so state
code `W` is always labeled `Paging` and no state code ever produces the
`Waking` label — that arm is dead. -/
theorem c10_waking_unreachable :
    stateLabel "W".data = some "Paging".data ∧
    ∀ c : List Char, ((stateLabel c).getD [] == "Waking".data) = false := by
  refine ⟨rfl, ?_⟩
  intro c
  rcases hf : stateCases.find? (fun p => p.1 = c) with _ | ⟨k, v⟩
  · simp [stateLabel, hf]
  · have hk : k = c := by simpa using List.find?_some hf
    have hmem : (k, v) ∈ stateCases := List.mem_of_find?_eq_some hf
    subst hk
    simp only [stateLabel, hf, Option.map_some', Option.getD_some]
    fin_cases hmem <;> first
      | decide
      | (exact absurd hf (by decide))

/-- Counterexample for C8: when the `/proc` listing cannot be read, the
error is thrown from the `fs.readdir` callback as an uncaught exception;
the returned promise is never rejected (nor resolved). -/
theorem c8_counterexample :
    readAll fsDown "4096".data = .uncaught .ioErr ∧
    readAll fsDown "4096".data ≠ .rejected .ioErr := by
  constructor
  · rfl
  · intro h
    have : Outcome.uncaught (α := List (List Char × ProcEntry)) .ioErr = .rejected .ioErr := by
      rw [← h]; rfl
    exact Outcome.noConfusion this

/-- Claim C8 (corrected): a failing directory listing does abort the whole
sample with no partial mapping, but via an uncaught `throw err` in the
Node callback — the promise never settles, and in particular is never
rejected. -/
theorem c8_listing_failure_uncaught (fs : Fs) (pagesize : List Char) (e : JsErr)
    (h : fs.readdirProc = .error e) :
    readAll fs pagesize = .uncaught e ∧
    (readAll fs pagesize).isResolved = false := by
  simp [readAll, h, Outcome.isResolved]

/-- Witness for C8's amended statement at the concrete filesystem. -/
theorem c8_witness :
    (readAll fsDown "4096".data).isResolved = false ∧
    readAll fsDown "4096".data = .uncaught .ioErr := by
  have H := c8_listing_failure_uncaught fsDown "4096".data .ioErr rfl
  exact ⟨H.2, H.1⟩

/-- If some enumerated directory entry fails to read, the `forEach` loop
aborts with that first exception. -/
theorem readLoop_error_of_mem (fs : Fs) (pagesize : List Char) (d : List Char)
    (e : JsErr) (herr : dirRead fs pagesize d = .error e) :
    ∀ (dirs : List (List Char)) (acc : List (List Char × ProcEntry)),
      d ∈ dirs → ∃ e', readLoop fs pagesize dirs acc = .error e' := by
  intro dirs
  induction dirs with
  | nil => intro acc h; cases h
  | cons a rest ih =>
      intro acc h
      rcases List.mem_cons.mp h with rfl | hmem
      · exact ⟨e, by simp [readLoop, herr]⟩
      · cases ha : dirRead fs pagesize a with
        | error e'' => exact ⟨e'', by simp [readLoop, ha]⟩
        | ok v =>
            cases v with
            | none =>
                obtain ⟨e', he'⟩ := ih acc hmem
                exact ⟨e', by simp [readLoop, ha, he']⟩
            | some pe =>
                obtain ⟨e', he'⟩ := ih (assocSet acc pe.1 pe.2) hmem
                exact ⟨e', by simp [readLoop, ha, he']⟩

/-- Counterexample for C2: pid 2's stat file is unreadable; instead of
skipping pid 2 and resolving with pid 1's entry, the whole read is aborted —
the exception is logged and the promise never settles. -/
theorem c2_counterexample :
    readAll fsTransient "4096".data = .hang .ioErr := by
  rfl

/-- Claim C2 (corrected): the `try/catch` wraps the whole enumeration loop,
so one unreadable identifier aborts the entire snapshot read: the promise
never resolves (it hangs after the error is logged) and no entries are
returned, not even for readable identifiers. -/
theorem c2_transient_aborts_whole_read (fs : Fs) (pagesize : List Char)
    (dirs : List (List Char)) (d : List Char) (e : JsErr)
    (hdirs : fs.readdirProc = .ok dirs) (hd : d ∈ dirs)
    (herr : dirRead fs pagesize d = .error e) :
    (readAll fs pagesize).isResolved = false ∧
    (readAll fs pagesize).isHang = true := by
  obtain ⟨e', he'⟩ := readLoop_error_of_mem fs pagesize d e herr dirs [] hd
  simp [readAll, hdirs, he', Outcome.isResolved, Outcome.isHang]

/-- Witness for C2's amended statement at the concrete filesystem. -/
theorem c2_witness :
    (readAll fsTransient "4096".data).isResolved = false ∧
    (readAll fsTransient "4096".data).isHang = true :=
  c2_transient_aborts_whole_read fsTransient "4096".data
    ["1".data, "2".data] "2".data .ioErr rfl (by simp) rfl

/-- Claim C4 (code bug): a 53-token line warns and still parses, as the
claim says; but a 51-token line, after warning, crashes the parse — the
token for schema position 51 is `undefined` and `undefined.match(...)`
throws `TypeError` — contradicting both the claim and the code's own
"may be inaccurate" diagnostic, which promises best-effort continuation. -/
theorem c4_drift_crashes_on_short_line :
    (parseStatParts line51).1 = true ∧
    (processDir "4096".data "1".data "cmd".data line51).2 = .error .typeError ∧
    (parseStatParts line53).1 = true ∧
    exceptOk (processDir "4096".data "1".data "cmd".data line53).2 = true := by
  refine ⟨?_, ?_, ?_, ?_⟩ <;> with_unfolding_all rfl

end Metrinix
